import Mathlib

/-!
Shallow embedding of `src/lib/drivers/clint.c` (Kendryte standalone SDK
CLINT driver): per-hart timer configuration, IPI mailbox, and the two
machine-mode trap handlers, together with proofs of the specification's
claims about them.

Hardware and platform primitives that `clint.c` consumes but does not
implement (CSR read/set/clear, hart-id lookup, the memory-mapped register
block, `sysctl_get_freq`) are modelled explicitly: CSRs as bit vectors
(`Nat → Bool`), the register block as fields of an explicit state record,
`read_hartid` and `sysctl_get_freq` as parameters of each operation.
User callbacks are opaque: a trap handler records which callback/context
pair it invoked in a trace instead of running foreign code.
-/

namespace Clint

/-- Truncation to 64 bits: every `uint64_t` computation in the C source is
performed modulo `2 ^ 64`. -/
def u64 (x : Nat) : Nat := x % 2 ^ 64

/-- Modelled from the spec: the compile-time hart-count bound `CLINT_NUM_HARTS`
(declared in `clint.h`, which is outside `src/`); the spec only requires a
fixed compile-time bound, the K210 has two harts. -/
def CLINT_NUM_HARTS : Nat := 2

/-- Modelled from the spec: the fixed clock divisor `CLINT_CLOCK_DIV`
(declared in `clint.h`, outside `src/`); the spec only requires a fixed
divisor constant. -/
def CLINT_CLOCK_DIV : Nat := 50

/-- Machine software-interrupt-pending / enable bit (bit 3), from `encoding.h`. -/
def MIP_MSIP : Nat := 2 ^ 3

/-- Machine timer-interrupt-pending / enable bit (bit 7), from `encoding.h`. -/
def MIP_MTIP : Nat := 2 ^ 7

/-- Global machine-interrupt-enable bit of `mstatus` (bit 3), from `encoding.h`. -/
def MSTATUS_MIE : Nat := 2 ^ 3

/-- Previous machine-interrupt-enable bit of `mstatus` (bit 7), from `encoding.h`. -/
def MSTATUS_MPIE : Nat := 2 ^ 7

/-- Previous-privilege field of `mstatus` (bits 11 and 12), from `encoding.h`. -/
def MSTATUS_MPP : Nat := 0x1800

/-- A control/status register, modelled as its sequence of bits. -/
def Csr : Type := Nat → Bool

/-- The `set_csr(reg, mask)` primitive: OR the mask into the register. -/
def set_csr (x : Csr) (m : Nat) : Csr := fun i => x i || m.testBit i

/-- The `clear_csr(reg, mask)` primitive: AND the complemented mask into the
register. -/
def clear_csr (x : Csr) (m : Nat) : Csr := fun i => x i && !(m.testBit i)

/-- Pointwise update of a hart-indexed array. -/
def upd {α : Type} (f : Nat → α) (i : Nat) (v : α) : Nat → α :=
  fun j => if j = i then v else f j

/-- `struct clint_timer_instance_t`: one hart's stored timer configuration.
The callback function pointer is an opaque identifier, `none` meaning `NULL`;
likewise the `void* ctx`. -/
structure clint_timer_instance_t where
  interval : Nat
  cycles : Nat
  single_shot : Nat
  callback : Option Nat
  ctx : Option Nat
deriving DecidableEq

/-- `struct clint_ipi_instance_t`: one hart's stored IPI callback pair. -/
structure clint_ipi_instance_t where
  callback : Option Nat
  ctx : Option Nat
deriving DecidableEq

/-- The driver-visible state: the two static per-hart instance arrays, the
memory-mapped CLINT register block (`mtime`, `mtimecmp[]`, `msip[]`), and the
calling hart's `mstatus` and `mie` CSRs. -/
structure ClintState where
  clint_timer_instance : Nat → clint_timer_instance_t
  clint_ipi_instance : Nat → clint_ipi_instance_t
  mtime : Nat
  mtimecmp : Nat → Nat
  msip : Nat → Bool
  mstatus : Csr
  mie : Csr

/-- `clint_get_time`: read the free-running counter. -/
def clint_get_time (s : ClintState) : Nat := s.mtime

/-- `clint_timer_init`: clear the machine-timer enable bit and reset the
calling hart's timer instance. -/
def clint_timer_init (s : ClintState) (hart_id : Nat) : Int × ClintState :=
  (0, { s with
          mie := clear_csr s.mie MIP_MTIP,
          clint_timer_instance :=
            upd s.clint_timer_instance hart_id ⟨0, 0, 0, none, none⟩ })

/-- `clint_timer_stop`: clear the machine-timer enable bit in `mie`. -/
def clint_timer_stop (s : ClintState) : Int × ClintState :=
  (0, { s with mie := clear_csr s.mie MIP_MTIP })

/-- `clint_timer_get_freq`: the system clock frequency divided by
`CLINT_CLOCK_DIV`; `sysctl_get_freq()` is an external input. -/
def clint_timer_get_freq (sysctl_freq : Nat) : Nat :=
  sysctl_freq / CLINT_CLOCK_DIV

/-- `clint_timer_get_interval`: read the calling hart's stored interval. -/
def clint_timer_get_interval (s : ClintState) (hart_id : Nat) : Nat :=
  (s.clint_timer_instance hart_id).interval

/-- `clint_timer_set_interval`: reject a zero interval, otherwise store the
interval and recompute the derived cycle count
`interval * clint_timer_get_freq() / 1000` in 64-bit arithmetic. -/
def clint_timer_set_interval (sysctl_freq : Nat) (s : ClintState)
    (hart_id : Nat) (interval : Nat) : Int × ClintState :=
  if interval = 0 then (-1, s)
  else
    (0, { s with
            clint_timer_instance :=
              upd s.clint_timer_instance hart_id
                { s.clint_timer_instance hart_id with
                    interval := interval,
                    cycles :=
                      u64 (interval * clint_timer_get_freq sysctl_freq) / 1000 } })

/-- `clint_timer_get_single_shot`: read the calling hart's single-shot flag. -/
def clint_timer_get_single_shot (s : ClintState) (hart_id : Nat) : Nat :=
  (s.clint_timer_instance hart_id).single_shot

/-- `clint_timer_set_single_shot`: store the (C `int`) flag into the `uint64_t`
field; the `int → uint64_t` conversion is reduction modulo `2 ^ 64`. -/
def clint_timer_set_single_shot (s : ClintState) (hart_id : Nat)
    (single_shot : Int) : Int × ClintState :=
  (0, { s with
          clint_timer_instance :=
            upd s.clint_timer_instance hart_id
              { s.clint_timer_instance hart_id with
                  single_shot := (single_shot % ((2 : Int) ^ 64)).toNat } })

/-- `clint_timer_start`: set interval and single-shot, re-check the stored
configuration, then program `mtimecmp` to `mtime + cycles` and enable the
global and timer interrupt-enable bits. -/
def clint_timer_start (sysctl_freq : Nat) (s : ClintState) (hart_id : Nat)
    (interval : Nat) (single_shot : Int) : Int × ClintState :=
  let r1 := clint_timer_set_interval sysctl_freq s hart_id interval
  if r1.1 ≠ 0 then (-1, r1.2)
  else
    let r2 := clint_timer_set_single_shot r1.2 hart_id single_shot
    if r2.1 ≠ 0 then (-1, r2.2)
    else if (r2.2.clint_timer_instance hart_id).interval = 0 then (-1, r2.2)
    else if (r2.2.clint_timer_instance hart_id).cycles = 0 then (-1, r2.2)
    else
      let now := r2.2.mtime
      let deadline := u64 (now + (r2.2.clint_timer_instance hart_id).cycles)
      (0, { r2.2 with
              mtimecmp := upd r2.2.mtimecmp hart_id deadline,
              mstatus := set_csr r2.2.mstatus MSTATUS_MIE,
              mie := set_csr r2.2.mie MIP_MTIP })

/-- `clint_timer_register`: store the calling hart's callback and context. -/
def clint_timer_register (s : ClintState) (hart_id : Nat)
    (callback : Option Nat) (ctx : Option Nat) : Int × ClintState :=
  (0, { s with
          clint_timer_instance :=
            upd s.clint_timer_instance hart_id
              { s.clint_timer_instance hart_id with
                  callback := callback, ctx := ctx } })

/-- `clint_timer_deregister`: register a `NULL` callback and context. -/
def clint_timer_deregister (s : ClintState) (hart_id : Nat) :
    Int × ClintState :=
  clint_timer_register s hart_id none none

/-- `clint_ipi_init`: clear the machine-software enable bit and reset the
calling hart's IPI instance. -/
def clint_ipi_init (s : ClintState) (hart_id : Nat) : Int × ClintState :=
  (0, { s with
          mie := clear_csr s.mie MIP_MSIP,
          clint_ipi_instance := upd s.clint_ipi_instance hart_id ⟨none, none⟩ })

/-- `clint_ipi_enable`: set the global and machine-software enable bits. -/
def clint_ipi_enable (s : ClintState) : Int × ClintState :=
  (0, { s with
          mstatus := set_csr s.mstatus MSTATUS_MIE,
          mie := set_csr s.mie MIP_MSIP })

/-- `clint_ipi_disable`: clear the machine-software enable bit. -/
def clint_ipi_disable (s : ClintState) : Int × ClintState :=
  (0, { s with mie := clear_csr s.mie MIP_MSIP })

/-- `clint_ipi_send`: reject an out-of-range hart, otherwise set the target
hart's mailbox bit. -/
def clint_ipi_send (s : ClintState) (hart_id : Nat) : Int × ClintState :=
  if CLINT_NUM_HARTS ≤ hart_id then (-1, s)
  else (0, { s with msip := upd s.msip hart_id true })

/-- `clint_ipi_clear`: reject an out-of-range hart; if the mailbox bit is set,
clear it and return 1, otherwise return 0. -/
def clint_ipi_clear (s : ClintState) (hart_id : Nat) : Int × ClintState :=
  if CLINT_NUM_HARTS ≤ hart_id then (-1, s)
  else if s.msip hart_id then (1, { s with msip := upd s.msip hart_id false })
  else (0, s)

/-- `clint_ipi_register`: store the calling hart's IPI callback and context. -/
def clint_ipi_register (s : ClintState) (hart_id : Nat)
    (callback : Option Nat) (ctx : Option Nat) : Int × ClintState :=
  (0, { s with
          clint_ipi_instance :=
            upd s.clint_ipi_instance hart_id ⟨callback, ctx⟩ })

/-- `clint_ipi_deregister`: register a `NULL` callback and context. -/
def clint_ipi_deregister (s : ClintState) (hart_id : Nat) : Int × ClintState :=
  clint_ipi_register s hart_id none none

/-- Result of a trap handler: the returned program counter, the final state,
and the trace of (callback, context) invocations made by the handler. -/
structure TrapResult where
  ret_epc : Nat
  state : ClintState
  calls : List (Nat × Option Nat)

/-- `handle_irq_m_timer`: save `mie`, mask the timer and software sources,
open the global-enable window, invoke the registered callback (if any),
restore `mstatus`/`mie`, and either advance `mtimecmp` by `cycles`
(periodic rearm) or leave the timer source disabled. `cause` and `regs`
are accepted and ignored exactly as in the C source. -/
def handle_irq_m_timer (s : ClintState) (hart_id : Nat)
    (cause epc : Nat) (regs : Nat → Nat) : TrapResult :=
  let ie_flag := s.mie
  let s1 := { s with mie := clear_csr s.mie (MIP_MTIP ||| MIP_MSIP) }
  let s2 := { s1 with mstatus := set_csr s1.mstatus MSTATUS_MIE }
  let calls :=
    match (s2.clint_timer_instance hart_id).callback with
    | some cb => [(cb, (s2.clint_timer_instance hart_id).ctx)]
    | none => []
  let s3 := { s2 with mstatus := clear_csr s2.mstatus MSTATUS_MIE }
  let s4 := { s3 with
                mstatus := set_csr s3.mstatus (MSTATUS_MPIE ||| MSTATUS_MPP) }
  let s5 := { s4 with mie := ie_flag }
  let s6 :=
    if (s5.clint_timer_instance hart_id).single_shot = 0 ∧
        (s5.clint_timer_instance hart_id).cycles ≠ 0 then
      { s5 with
          mtimecmp :=
            upd s5.mtimecmp hart_id
              (u64 (s5.mtimecmp hart_id +
                (s5.clint_timer_instance hart_id).cycles)) }
    else
      { s5 with mie := clear_csr s5.mie MIP_MTIP }
  { ret_epc := epc, state := s6, calls := calls }

/-- `handle_irq_m_soft`: mask the software source, open the global-enable
window, clear this hart's mailbox bit, invoke the registered callback (if
any), restore `mstatus`, and re-enable the software source. `cause` and
`regs` are accepted and ignored exactly as in the C source. -/
def handle_irq_m_soft (s : ClintState) (hart_id : Nat)
    (cause epc : Nat) (regs : Nat → Nat) : TrapResult :=
  let s1 := { s with mie := clear_csr s.mie MIP_MSIP }
  let s2 := { s1 with mstatus := set_csr s1.mstatus MSTATUS_MIE }
  let s3 := (clint_ipi_clear s2 hart_id).2
  let calls :=
    match (s3.clint_ipi_instance hart_id).callback with
    | some cb => [(cb, (s3.clint_ipi_instance hart_id).ctx)]
    | none => []
  let s4 := { s3 with mstatus := clear_csr s3.mstatus MSTATUS_MIE }
  let s5 := { s4 with
                mstatus := set_csr s4.mstatus (MSTATUS_MPIE ||| MSTATUS_MPP) }
  let s6 := { s5 with mie := set_csr s5.mie MIP_MSIP }
  { ret_epc := epc, state := s6, calls := calls }

/-- Reading an updated array at the updated index. -/
lemma upd_self {α : Type} (f : Nat → α) (i : Nat) (v : α) : upd f i v i = v := by
  simp [upd]

/-- `clint_ipi_clear` never touches the per-hart IPI instances. -/
lemma clint_ipi_clear_ipi_instance (s : ClintState) (hart_id : Nat) :
    (clint_ipi_clear s hart_id).2.clint_ipi_instance = s.clint_ipi_instance := by
  unfold clint_ipi_clear
  split
  · rfl
  · split <;> rfl

/-- A concrete state used to instantiate hypotheses: hart 0 holds interval 5,
cycles 10, periodic mode, no callback; all registers zeroed. -/
def sExample : ClintState where
  clint_timer_instance := fun _ => ⟨5, 10, 0, none, none⟩
  clint_ipi_instance := fun _ => ⟨none, none⟩
  mtime := 100
  mtimecmp := fun _ => 0
  msip := fun _ => false
  mstatus := fun _ => false
  mie := fun _ => false

/-- C8: for every invocation, with any cause, program counter and register
file, both trap handlers return exactly the program counter they received. -/
theorem handlers_return_epc (s : ClintState) (hart_id cause epc : Nat)
    (regs : Nat → Nat) :
    (handle_irq_m_timer s hart_id cause epc regs).ret_epc = epc ∧
    (handle_irq_m_soft s hart_id cause epc regs).ret_epc = epc :=
  ⟨rfl, rfl⟩

/-- C10: the ten configuration operations return 0 (success) for every input,
including a null callback paired with an arbitrary non-null context and any
integer single-shot value. -/
theorem config_ops_always_succeed (s : ClintState) (hart_id : Nat)
    (single_shot : Int) (cb tcx icb icx : Option Nat) :
    (clint_timer_init s hart_id).1 = 0 ∧
    (clint_timer_stop s).1 = 0 ∧
    (clint_timer_set_single_shot s hart_id single_shot).1 = 0 ∧
    (clint_timer_register s hart_id cb tcx).1 = 0 ∧
    (clint_timer_deregister s hart_id).1 = 0 ∧
    (clint_ipi_init s hart_id).1 = 0 ∧
    (clint_ipi_enable s).1 = 0 ∧
    (clint_ipi_disable s).1 = 0 ∧
    (clint_ipi_register s hart_id icb icx).1 = 0 ∧
    (clint_ipi_deregister s hart_id).1 = 0 :=
  ⟨rfl, rfl, rfl, rfl, rfl, rfl, rfl, rfl, rfl, rfl⟩

/-- C9: `clint_timer_stop` clears only the timer-interrupt-enable bit (bit 7
of `mie`); every other `mie` bit, the stored per-hart configuration, the
compare registers, `mstatus` and the mailbox bits are unchanged. -/
theorem clint_timer_stop_clears_only_mtip (s : ClintState) :
    (clint_timer_stop s).2.mie 7 = false ∧
    (∀ i, i ≠ 7 → (clint_timer_stop s).2.mie i = s.mie i) ∧
    (clint_timer_stop s).2.clint_timer_instance = s.clint_timer_instance ∧
    (clint_timer_stop s).2.mtimecmp = s.mtimecmp ∧
    (clint_timer_stop s).2.mstatus = s.mstatus ∧
    (clint_timer_stop s).2.msip = s.msip := by
  refine ⟨?_, ?_, rfl, rfl, rfl, rfl⟩
  · simp only [clint_timer_stop, clear_csr]
    rw [show MIP_MTIP = 2 ^ 7 from rfl, Nat.testBit_two_pow_self]
    simp
  · intro i hi
    simp only [clint_timer_stop, clear_csr]
    rw [show MIP_MTIP = 2 ^ 7 from rfl, Nat.testBit_two_pow_of_ne (Ne.symm hi)]
    simp

/-- C9 witness: at the concrete state, stopping disables bit 7 of `mie` and
leaves bit 0 alone. -/
theorem clint_timer_stop_clears_only_mtip_witness :
    (clint_timer_stop sExample).2.mie 7 = false ∧
    (clint_timer_stop sExample).2.mie 0 = sExample.mie 0 :=
  ⟨(clint_timer_stop_clears_only_mtip sExample).1,
    (clint_timer_stop_clears_only_mtip sExample).2.1 0 (by decide)⟩

/-- C7: after `clint_timer_deregister` or `clint_ipi_deregister` the stored
callback and context of the calling hart are null, and a subsequent trap
handler invocation on that hart invokes no callback at all. -/
theorem deregister_silences_callbacks (s : ClintState)
    (hart_id cause epc cause2 epc2 : Nat) (regs regs2 : Nat → Nat) :
    ((clint_timer_deregister s hart_id).2.clint_timer_instance hart_id).callback
      = none ∧
    ((clint_timer_deregister s hart_id).2.clint_timer_instance hart_id).ctx
      = none ∧
    (handle_irq_m_timer (clint_timer_deregister s hart_id).2 hart_id
      cause epc regs).calls = [] ∧
    ((clint_ipi_deregister s hart_id).2.clint_ipi_instance hart_id).callback
      = none ∧
    ((clint_ipi_deregister s hart_id).2.clint_ipi_instance hart_id).ctx
      = none ∧
    (handle_irq_m_soft (clint_ipi_deregister s hart_id).2 hart_id
      cause2 epc2 regs2).calls = [] := by
  refine ⟨?_, ?_, ?_, ?_, ?_, ?_⟩ <;>
    simp [clint_timer_deregister, clint_timer_register, clint_ipi_deregister,
      clint_ipi_register, handle_irq_m_timer, handle_irq_m_soft,
      clint_ipi_clear_ipi_instance, upd]

/-- C2: in every timer-trap execution, if the hart's single-shot flag is
clear and its cycle count nonzero, the hart's compare register advances by
exactly `cycles` (64-bit); otherwise the compare register is unchanged and
the timer-interrupt-enable bit is left disabled. -/
theorem handle_irq_m_timer_rearm (s : ClintState) (hart_id cause epc : Nat)
    (regs : Nat → Nat) :
    if (s.clint_timer_instance hart_id).single_shot = 0 ∧
        (s.clint_timer_instance hart_id).cycles ≠ 0 then
      (handle_irq_m_timer s hart_id cause epc regs).state.mtimecmp hart_id =
        u64 (s.mtimecmp hart_id + (s.clint_timer_instance hart_id).cycles)
    else
      (handle_irq_m_timer s hart_id cause epc regs).state.mtimecmp hart_id =
        s.mtimecmp hart_id ∧
      (handle_irq_m_timer s hart_id cause epc regs).state.mie 7 = false := by
  by_cases hc : (s.clint_timer_instance hart_id).single_shot = 0 ∧
      (s.clint_timer_instance hart_id).cycles ≠ 0
  · simp [handle_irq_m_timer, hc, upd]
  · refine if_neg hc ▸ ⟨?_, ?_⟩
    · simp [handle_irq_m_timer, hc]
    · simp only [handle_irq_m_timer, hc, if_false, clear_csr]
      rw [show MIP_MTIP = 2 ^ 7 from rfl, Nat.testBit_two_pow_self]
      simp

/-- C3: `clint_timer_start` fails exactly when the requested interval or the
derived cycle count is zero, regardless of single-shot; on success it
programs the calling hart's compare register to `mtime + cycles` (64-bit)
and sets the global interrupt-enable bit (`mstatus` bit 3) and the
timer-interrupt-enable bit (`mie` bit 7). -/
theorem clint_timer_start_correct (sysctl_freq : Nat) (s : ClintState)
    (hart_id interval : Nat) (single_shot : Int) :
    if interval = 0 ∨
        u64 (interval * clint_timer_get_freq sysctl_freq) / 1000 = 0 then
      (clint_timer_start sysctl_freq s hart_id interval single_shot).1 = -1
    else
      (clint_timer_start sysctl_freq s hart_id interval single_shot).1 = 0 ∧
      (clint_timer_start sysctl_freq s hart_id interval
          single_shot).2.mtimecmp hart_id =
        u64 (s.mtime + u64 (interval * clint_timer_get_freq sysctl_freq) / 1000) ∧
      (clint_timer_start sysctl_freq s hart_id interval
          single_shot).2.mstatus 3 = true ∧
      (clint_timer_start sysctl_freq s hart_id interval
          single_shot).2.mie 7 = true := by
  by_cases h0 : interval = 0
  · simp [clint_timer_start, clint_timer_set_interval, h0]
  · by_cases hcy : u64 (interval * clint_timer_get_freq sysctl_freq) / 1000 = 0
    · simp [clint_timer_start, clint_timer_set_interval,
        clint_timer_set_single_shot, h0, hcy, upd]
    · simp only [clint_timer_start, clint_timer_set_interval,
        clint_timer_set_single_shot, h0, hcy, upd, set_csr]
      simp [h0, hcy, upd, set_csr]
      refine ⟨?_, ?_⟩
      · rw [show MSTATUS_MIE = 2 ^ 3 from rfl, Nat.testBit_two_pow_self]
        simp
      · rw [show MIP_MTIP = 2 ^ 7 from rfl, Nat.testBit_two_pow_self]
        simp

/-- C4: `clint_timer_set_interval` fails exactly when the requested interval
is zero, retaining the stored interval and cycle count; on success it stores
the interval (so `clint_timer_get_interval` returns it) and recomputes the
cycle count as `ms * clint_timer_get_freq() / 1000` in 64-bit arithmetic. -/
theorem clint_timer_set_interval_correct (sysctl_freq : Nat) (s : ClintState)
    (hart_id ms : Nat) :
    if ms = 0 then
      (clint_timer_set_interval sysctl_freq s hart_id ms).1 = -1 ∧
      ((clint_timer_set_interval sysctl_freq s hart_id
          ms).2.clint_timer_instance hart_id).interval =
        (s.clint_timer_instance hart_id).interval ∧
      ((clint_timer_set_interval sysctl_freq s hart_id
          ms).2.clint_timer_instance hart_id).cycles =
        (s.clint_timer_instance hart_id).cycles
    else
      (clint_timer_set_interval sysctl_freq s hart_id ms).1 = 0 ∧
      clint_timer_get_interval
        (clint_timer_set_interval sysctl_freq s hart_id ms).2 hart_id = ms ∧
      ((clint_timer_set_interval sysctl_freq s hart_id
          ms).2.clint_timer_instance hart_id).cycles =
        u64 (ms * clint_timer_get_freq sysctl_freq) / 1000 := by
  by_cases h0 : ms = 0
  · simp [clint_timer_set_interval, h0]
  · simp [clint_timer_set_interval, clint_timer_get_interval, h0, upd]

/-- C5: for an in-range hart, a successful `clint_ipi_send` sets the mailbox
bit; the next `clint_ipi_clear` reports it was set (1) and clears it, a second
immediate clear reports it was not set (0), and clear never fails in range. -/
theorem clint_ipi_send_clear_protocol (s : ClintState) (h : Nat)
    (hh : h < CLINT_NUM_HARTS) :
    (clint_ipi_send s h).1 = 0 ∧
    (clint_ipi_send s h).2.msip h = true ∧
    (clint_ipi_clear (clint_ipi_send s h).2 h).1 = 1 ∧
    (clint_ipi_clear (clint_ipi_send s h).2 h).2.msip h = false ∧
    (clint_ipi_clear (clint_ipi_clear (clint_ipi_send s h).2 h).2 h).1 = 0 ∧
    (clint_ipi_clear s h).1 ≠ -1 := by
  have hnot : ¬ CLINT_NUM_HARTS ≤ h := Nat.not_le.mpr hh
  refine ⟨?_, ?_, ?_, ?_, ?_, ?_⟩
  · simp [clint_ipi_send, hnot]
  · simp [clint_ipi_send, hnot, upd]
  · simp [clint_ipi_send, clint_ipi_clear, hnot, upd]
  · simp [clint_ipi_send, clint_ipi_clear, hnot, upd]
  · simp [clint_ipi_send, clint_ipi_clear, hnot, upd]
  · by_cases hm : s.msip h <;> simp [clint_ipi_clear, hnot, hm]

/-- C5 witness: the send/clear/clear protocol at hart 0 of the concrete
state. -/
theorem clint_ipi_send_clear_protocol_witness :
    (clint_ipi_send sExample 0).1 = 0 ∧
    (clint_ipi_send sExample 0).2.msip 0 = true ∧
    (clint_ipi_clear (clint_ipi_send sExample 0).2 0).1 = 1 ∧
    (clint_ipi_clear (clint_ipi_send sExample 0).2 0).2.msip 0 = false ∧
    (clint_ipi_clear
      (clint_ipi_clear (clint_ipi_send sExample 0).2 0).2 0).1 = 0 ∧
    (clint_ipi_clear sExample 0).1 ≠ -1 :=
  clint_ipi_send_clear_protocol sExample 0 (by decide)

/-- C6: for a hart index at or beyond the compile-time bound, both
`clint_ipi_send` and `clint_ipi_clear` fail and leave every mailbox bit
unchanged. -/
theorem clint_ipi_out_of_range_noop (s : ClintState) (h : Nat)
    (hh : CLINT_NUM_HARTS ≤ h) :
    (clint_ipi_send s h).1 = -1 ∧
    (clint_ipi_clear s h).1 = -1 ∧
    (clint_ipi_send s h).2.msip = s.msip ∧
    (clint_ipi_clear s h).2.msip = s.msip := by
  refine ⟨?_, ?_, ?_, ?_⟩ <;> simp [clint_ipi_send, clint_ipi_clear, hh]

/-- C6 witness: both operations fail and preserve the mailbox array at the
out-of-range hart index 2. -/
theorem clint_ipi_out_of_range_noop_witness :
    (clint_ipi_send sExample 2).1 = -1 ∧
    (clint_ipi_clear sExample 2).1 = -1 ∧
    (clint_ipi_send sExample 2).2.msip = sExample.msip ∧
    (clint_ipi_clear sExample 2).2.msip = sExample.msip :=
  clint_ipi_out_of_range_noop sExample 2 (by decide)

/-- C1 counterexample: with system clock 25000 (effective timer frequency
500), `clint_timer_start 1 1` on hart 0 fails — the derived cycle count
`1 * 500 / 1000` is zero — yet the hart's stored interval, previously 5, has
been overwritten to 1, and its single-shot flag, previously 0, is now 1. -/
theorem clint_timer_start_failure_mutates_config :
    (clint_timer_start 25000 sExample 0 1 1).1 ≠ 0 ∧
    ((clint_timer_start 25000 sExample 0 1 1).2.clint_timer_instance
      0).interval = 1 ∧
    (sExample.clint_timer_instance 0).interval = 5 ∧
    ((clint_timer_start 25000 sExample 0 1 1).2.clint_timer_instance
      0).single_shot = 1 ∧
    (sExample.clint_timer_instance 0).single_shot = 0 := by
  refine ⟨by decide, by decide, rfl, by decide, rfl⟩

/-- C1 amended: whenever `clint_timer_start` fails, no hardware register
(`mtime`, `mtimecmp`, `msip`, `mstatus`, `mie`) is written and the calling
hart's stored callback and context are unchanged — but the stored interval,
cycles and single-shot flag may already have been overwritten. -/
theorem clint_timer_start_failure_frame (sysctl_freq : Nat) (s : ClintState)
    (hart_id interval : Nat) (single_shot : Int)
    (h : (clint_timer_start sysctl_freq s hart_id interval single_shot).1 ≠ 0) :
    (clint_timer_start sysctl_freq s hart_id interval single_shot).2.mtime
      = s.mtime ∧
    (clint_timer_start sysctl_freq s hart_id interval single_shot).2.mtimecmp
      = s.mtimecmp ∧
    (clint_timer_start sysctl_freq s hart_id interval single_shot).2.msip
      = s.msip ∧
    (clint_timer_start sysctl_freq s hart_id interval single_shot).2.mstatus
      = s.mstatus ∧
    (clint_timer_start sysctl_freq s hart_id interval single_shot).2.mie
      = s.mie ∧
    ((clint_timer_start sysctl_freq s hart_id interval
        single_shot).2.clint_timer_instance hart_id).callback =
      (s.clint_timer_instance hart_id).callback ∧
    ((clint_timer_start sysctl_freq s hart_id interval
        single_shot).2.clint_timer_instance hart_id).ctx =
      (s.clint_timer_instance hart_id).ctx := by
  by_cases h0 : interval = 0
  · simp [clint_timer_start, clint_timer_set_interval, h0]
  · by_cases hcy : u64 (interval * clint_timer_get_freq sysctl_freq) / 1000 = 0
    · simp [clint_timer_start, clint_timer_set_interval,
        clint_timer_set_single_shot, h0, hcy, upd]
    · exact absurd (by simp [clint_timer_start, clint_timer_set_interval,
        clint_timer_set_single_shot, h0, hcy, upd]) h

/-- C1 amended witness: at the concrete failing call, the hardware registers
and the callback/context pair are untouched. -/
theorem clint_timer_start_failure_frame_witness :
    (clint_timer_start 25000 sExample 0 1 1).2.mtime = sExample.mtime ∧
    (clint_timer_start 25000 sExample 0 1 1).2.mtimecmp = sExample.mtimecmp ∧
    (clint_timer_start 25000 sExample 0 1 1).2.msip = sExample.msip ∧
    (clint_timer_start 25000 sExample 0 1 1).2.mstatus = sExample.mstatus ∧
    (clint_timer_start 25000 sExample 0 1 1).2.mie = sExample.mie ∧
    ((clint_timer_start 25000 sExample 0 1 1).2.clint_timer_instance
      0).callback = (sExample.clint_timer_instance 0).callback ∧
    ((clint_timer_start 25000 sExample 0 1 1).2.clint_timer_instance
      0).ctx = (sExample.clint_timer_instance 0).ctx :=
  clint_timer_start_failure_frame 25000 sExample 0 1 1 (by decide)

end Clint
